import Mathlib

/-!
Shallow embedding of the Vial25Dash dashboard client (TypeScript/React) in Lean 4.

Each definition mirrors one function of the repository:
* `apiFetch`, `buildUrl`, `shouldSkipRefresh` — the session-aware fetch wrapper
  (`src/lib/api`); the network is modelled by a `FetchEnv` oracle that fixes the
  response of the first request, the refresh request, and the replayed request,
  and `apiFetch` additionally returns the trace of requests it issued.
* `onRequest`, `pubFileTest` — the Astro route middleware.
* the sessionStorage-backed caches of the estadistico / cabinas / temporal panels.
* `computedKpis` and the `kpis` selection of the ChartEstadistico panel.
* the post-await continuations of the panels' `fetchData` functions, guarded by
  the `isMounted` flag.
* the `handleSubmit` prelude of the login form.

JavaScript numbers are embedded as rationals (`ℚ`), JS string operations as
operations on `String`/`List Char`.
-/

namespace Vial25Dash

/-- JS `String.prototype.startsWith` on the model: character-list prefix test. -/
def jsStartsWith (s pat : String) : Bool :=
  pat.data.isPrefixOf s.data

/-- Helper for JS `String.prototype.includes`: does `pat` occur as a contiguous
sublist of the second argument? -/
def hasSubList (pat : List Char) : List Char → Bool
  | [] => pat.isEmpty
  | c :: rest => pat.isPrefixOf (c :: rest) || hasSubList pat rest

/-- JS `s.includes(pat)`. -/
def strIncludes (s pat : String) : Bool :=
  hasSubList pat.data s.data

/-- An HTTP response, reduced to its status code (all the wrapper inspects). -/
structure Response where
  status : Nat
deriving DecidableEq, Repr

/-- `response.ok` of the fetch API: status in the range 200–299. -/
def Response.ok (r : Response) : Bool :=
  decide (200 ≤ r.status) && decide (r.status < 300)

/-- The `ApiFetchOptions` of `src/lib/api`: `RequestInit & \x7b skipAuthRefresh? \x7d`,
reduced to the fields the wrapper inspects (`skipAuthRefresh`) plus the request
method carried through to the issued requests. -/
structure ApiFetchOptions where
  skipAuthRefresh : Bool := false
  method : String := "GET"
deriving DecidableEq, Repr

/-- A request issued by the wrapper: target URL and method. -/
structure Request where
  url : String
  method : String
deriving DecidableEq, Repr

/-- The network oracle: the responses the three possible `fetch` calls of one
`apiFetch` invocation would receive. -/
structure FetchEnv where
  firstResponse : Response
  refreshResponse : Response
  replayResponse : Response
deriving DecidableEq, Repr

/-- `buildUrl` of `src/lib/api`: absolute URLs pass through, anything else is
prefixed with the configured base URL. -/
def buildUrl (baseUrl pathOrUrl : String) : String :=
  if jsStartsWith pathOrUrl "http://" || jsStartsWith pathOrUrl "https://" then
    pathOrUrl
  else
    baseUrl ++ pathOrUrl

/-- `shouldSkipRefresh` of `src/lib/api`. -/
def shouldSkipRefresh (url : String) (options : ApiFetchOptions) : Bool :=
  if options.skipAuthRefresh then true
  else if strIncludes url "/auth/login" then true
  else if strIncludes url "/auth/refresh" then true
  else false

/-- `apiFetch` of `src/lib/api`, returning the response handed back to the
caller together with the trace of requests issued, in order. -/
def apiFetch (baseUrl pathOrUrl : String) (options : ApiFetchOptions)
    (env : FetchEnv) : Response × List Request :=
  let url := buildUrl baseUrl pathOrUrl
  let origReq : Request := { url := url, method := options.method }
  if env.firstResponse.status != 401 || shouldSkipRefresh url options then
    (env.firstResponse, [origReq])
  else
    let refreshReq : Request := { url := buildUrl baseUrl "/auth/refresh", method := "POST" }
    if !env.refreshResponse.ok then
      (env.firstResponse, [origReq, refreshReq])
    else
      (env.replayResponse, [origReq, refreshReq, origReq])

/-- Result of the Astro middleware: pass the request through or redirect. -/
inductive MwResult where
  | next
  | redirectTo (location : String)
deriving DecidableEq, Repr

/-- JS `\w` character class (ASCII word character). -/
def isWordChar (c : Char) : Bool :=
  c.isAlpha || c.isDigit || c == '_'

/-- The `PUBLIC_FILE` regex test `/\.[\w]+$/`: the pathname ends in a dot
followed by one or more word characters. -/
def pubFileTest (s : String) : Bool :=
  match s.data.reverse.takeWhile isWordChar, s.data.reverse.dropWhile isWordChar with
  | [], _ => false
  | _ :: _, '.' :: _ => true
  | _, _ => false

/-- `onRequest` of the route middleware (`src/middleware`): public paths pass
through; otherwise redirect to `/login` unless the `access_token` cookie is
present with a truthy (non-empty) value. The cookie argument is
`cookies.get("access_token")?.value`. -/
def onRequest (pathname : String) (accessTokenCookie : Option String) : MwResult :=
  if jsStartsWith pathname "/login" || jsStartsWith pathname "/auth" ||
      jsStartsWith pathname "/_astro" || pubFileTest pathname then
    MwResult.next
  else if (accessTokenCookie.getD "") != "" then
    MwResult.next
  else
    MwResult.redirectTo "/login"

/-- Every list is a prefix of itself (in the executable `isPrefixOf` sense). -/
theorem list_isPrefixOf_self (l : List Char) : l.isPrefixOf l = true := by
  induction l with
  | nil => rfl
  | cons a l ih => simp [List.isPrefixOf, ih]

/-- `hasSubList` finds the pattern at the end of any list. -/
theorem hasSubList_append_self (pat xs : List Char) : hasSubList pat (xs ++ pat) = true := by
  induction xs with
  | nil =>
    cases pat with
    | nil => rfl
    | cons c cs => simp [hasSubList, list_isPrefixOf_self]
  | cons x xs ih => simp [hasSubList, ih]

/-- A string appended after anything is found by `strIncludes`. -/
theorem strIncludes_append_self (b p : String) : strIncludes (b ++ p) p = true := by
  obtain ⟨bl⟩ := b
  obtain ⟨pl⟩ := p
  simpa [strIncludes, String.append] using hasSubList_append_self pl bl

/-- Reading off the three negative conditions from `shouldSkipRefresh = false`. -/
theorem shouldSkipRefresh_eq_false {url : String} {options : ApiFetchOptions}
    (h : shouldSkipRefresh url options = false) :
    options.skipAuthRefresh = false ∧ strIncludes url "/auth/login" = false ∧
      strIncludes url "/auth/refresh" = false := by
  unfold shouldSkipRefresh at h
  split_ifs at h with h1 h2 h3
  exact ⟨by simpa using h1, by simpa using h2, by simpa using h3⟩

/-- The refresh endpoint URL built by `apiFetch` is the base URL with
`/auth/refresh` appended. -/
theorem buildUrl_refresh (baseUrl : String) :
    buildUrl baseUrl "/auth/refresh" = baseUrl ++ "/auth/refresh" := by
  have h1 : jsStartsWith "/auth/refresh" "http://" = false := by decide
  have h2 : jsStartsWith "/auth/refresh" "https://" = false := by decide
  simp [buildUrl, h1, h2]

/-- A URL that does not contain `/auth/refresh` differs from the built refresh
endpoint URL. -/
theorem url_ne_refreshUrl {url : String} (baseUrl : String)
    (h : strIncludes url "/auth/refresh" = false) :
    url ≠ buildUrl baseUrl "/auth/refresh" := by
  intro he
  rw [buildUrl_refresh] at he
  have ht := strIncludes_append_self baseUrl "/auth/refresh"
  rw [← he, h] at ht
  exact Bool.false_ne_true ht

/-- A row of the `/r-estadistico` response (`EstadisticoRow` in
`chart-estadistico`); JS numbers are embedded as `ℚ`, `VALOR_0` is
`number | null`. -/
structure EstadisticoRow where
  ID_CONCESION : ℚ
  ID_PEAJE : ℚ
  FECHA : String
  «AÑO» : ℚ
  MES : ℚ
  FORMA_DE_PAGO : String
  CABINA : ℚ
  CAT0 : ℚ
  VALOR_0 : Option ℚ
  CAT1 : ℚ
  VALOR_1 : ℚ
  CAT2 : ℚ
  VALOR_2 : ℚ
  CAT3 : ℚ
  VALOR_3 : ℚ
  CAT4 : ℚ
  VALOR_4 : ℚ
  CAT5 : ℚ
  VALOR_5 : ℚ
  CAT6 : ℚ
  VALOR_6 : ℚ
  CAT7 : ℚ
  VALOR_7 : ℚ
  CAT8 : ℚ
  VALOR_8 : ℚ
  CAT9 : ℚ
  VALOR_9 : ℚ

/-- `\x7b categoria: string; valor: number \x7d` entries. -/
structure CategoriaValor where
  categoria : String
  valor : ℚ

/-- `\x7b categoria: string; efec: number; exentos: number \x7d` entries. -/
structure EfecExentos where
  categoria : String
  efec : ℚ
  exentos : ℚ

/-- `\x7b tipo: string; cantidad: number; valor: number \x7d` entries. -/
structure RfidTipo where
  tipo : String
  cantidad : ℚ
  valor : ℚ

/-- `\x7b tipo: string; cantidad: number \x7d` entries. -/
structure TipoCantidad where
  tipo : String
  cantidad : ℚ

/-- `\x7b mes: string; valor: number \x7d` entries. -/
structure MesValor where
  mes : String
  valor : ℚ

/-- `EstadisticoAggregates` of `chart-estadistico`. -/
structure EstadisticoAggregates where
  ingresoTotal : ℚ
  vehiculosEfec : ℚ
  vehiculosExentos : ℚ
  vehiculosRfid100 : ℚ
  porcentajeExentos : ℚ
  ingresoPorCategoria : List CategoriaValor
  efecVsExentos : List EfecExentos
  rfidPorTipo : List RfidTipo
  tiposExentos : List TipoCantidad
  evolucionMensual : List MesValor

/-- `EstadisticoResponse`: raw rows plus optional server aggregates.
`aggregates : Option _` covers both an absent and a `null` field. -/
structure EstadisticoResponse where
  data : List EstadisticoRow
  aggregates : Option EstadisticoAggregates

/-- The parsed `data` field of a stored estadistico cache entry: either a JSON
array of rows (the `Array.isArray` branch) or some other JSON value. -/
inductive EstJsonData where
  | rows (l : List EstadisticoRow)
  | nonArray

/-- A sessionStorage slot of the estadistico cache: a parseable
`\x7b data, aggregates, timestamp \x7d` object, or a string `JSON.parse` rejects. -/
inductive EstCached where
  | entry (data : EstJsonData) (aggregates : Option EstadisticoAggregates) (timestamp : ℤ)
  | malformed

/-- sessionStorage, restricted to the estadistico cache slots. -/
def EstStorage : Type := String → Option EstCached

/-- `sessionStorage.removeItem`. -/
def storageRemove {β : Type} (store : String → Option β) (k : String) :
    String → Option β :=
  fun k2 => if k2 = k then none else store k2

/-- `sessionStorage.setItem`. -/
def storageSet {β : Type} (store : String → Option β) (k : String) (v : β) :
    String → Option β :=
  fun k2 => if k2 = k then some v else store k2

/-- `CACHE_EXPIRY = 30 * 60 * 1000` (30 minutes in milliseconds), shared by all
three panel caches. -/
def CACHE_EXPIRY : ℤ := 30 * 60 * 1000

/-- `getCachedData` of `chart-estadistico` (cache key namespace
`estadistico-cache-`): returns the decoded payload (or `none`) together with
the storage after the call (expired entries are removed). -/
def getCachedDataEst (now : ℤ) (store : EstStorage) (key : String) :
    Option EstadisticoResponse × EstStorage :=
  match store ("estadistico-cache-" ++ key) with
  | none => (none, store)
  | some EstCached.malformed => (none, store)
  | some (EstCached.entry d aggs ts) =>
    if now - ts > CACHE_EXPIRY then
      (none, storageRemove store ("estadistico-cache-" ++ key))
    else
      match d with
      | EstJsonData.rows l => (some ⟨l, aggs⟩, store)
      | EstJsonData.nonArray => (none, store)

/-- `setCachedData` of `chart-estadistico`; `writeOk = false` models a
`setItem` failure (quota exceeded), which the catch block ignores. -/
def setCachedDataEst (now : ℤ) (writeOk : Bool) (store : EstStorage) (key : String)
    (payload : EstadisticoResponse) : EstStorage :=
  if writeOk then
    storageSet store ("estadistico-cache-" ++ key)
      (EstCached.entry (EstJsonData.rows payload.data) payload.aggregates now)
  else
    store

/-- `\x7b cabina: number; cantidad: number \x7d` entries. -/
structure CabinaCantidad where
  cabina : ℚ
  cantidad : ℚ

/-- `\x7b hora: string; cantidad: number \x7d` entries. -/
structure HoraCantidad where
  hora : String
  cantidad : ℚ

/-- `transitosPorCabina` entries. -/
structure TransitoCabina where
  cabina : ℚ
  cantidad : ℚ
  porcentaje : ℚ
  ingreso : ℚ

/-- `tendenciaPorCabina` entries. -/
structure FechaCabinaCantidad where
  fecha : String
  cabina : ℚ
  cantidad : ℚ

/-- `transitosPorCabinaTurno` entries. -/
structure CabinaTurnoCantidad where
  cabina : ℚ
  turno : ℚ
  cantidad : ℚ

/-- `pagoPorCabina` entries (`metodo` is one of "EFEC" | "RFID" | "EXENTO"). -/
structure PagoCabina where
  cabina : ℚ
  metodo : String
  cantidad : ℚ

/-- `CabinasAggregates` of `chart-cabinas.tsx`. -/
structure CabinasAggregates where
  totalTransitos : ℚ
  promedioDiario : ℚ
  cabinaTop : CabinaCantidad
  cabinaBottom : CabinaCantidad
  horaPico : HoraCantidad
  transitosPorCabina : List TransitoCabina
  tendenciaPorCabina : List FechaCabinaCantidad
  transitosPorCabinaTurno : List CabinaTurnoCantidad
  pagoPorCabina : List PagoCabina
  top5Cabinas : List CabinaCantidad
  bottom5Cabinas : List CabinaCantidad

/-- A sessionStorage slot of the cabinas cache:
`\x7b aggregates, timestamp \x7d` or a string `JSON.parse` rejects. -/
inductive CabCached where
  | entry (aggregates : Option CabinasAggregates) (timestamp : ℤ)
  | malformed

/-- sessionStorage, restricted to the cabinas cache slots. -/
def CabStorage : Type := String → Option CabCached

/-- `getCachedData` of `chart-cabinas.tsx` (namespace `cabinas-cache-`). -/
def getCachedDataCab (now : ℤ) (store : CabStorage) (key : String) :
    Option CabinasAggregates × CabStorage :=
  match store ("cabinas-cache-" ++ key) with
  | none => (none, store)
  | some CabCached.malformed => (none, store)
  | some (CabCached.entry aggs ts) =>
    if now - ts > CACHE_EXPIRY then
      (none, storageRemove store ("cabinas-cache-" ++ key))
    else
      (aggs, store)

/-- `setCachedData` of `chart-cabinas.tsx`. -/
def setCachedDataCab (now : ℤ) (writeOk : Bool) (store : CabStorage) (key : String)
    (aggregates : Option CabinasAggregates) : CabStorage :=
  if writeOk then
    storageSet store ("cabinas-cache-" ++ key) (CabCached.entry aggregates now)
  else
    store

/-- `\x7b fecha: string; cantidad: number \x7d` entries. -/
structure FechaCantidad where
  fecha : String
  cantidad : ℚ

/-- `promedioPorDiaSemana` entries. -/
structure DiaCantidadTotal where
  dia : String
  cantidad : ℚ
  total : ℚ

/-- `heatmapDiaHora` entries. -/
structure DiaHoraCantidad where
  dia : String
  hora : String
  cantidad : ℚ

/-- `TemporalAggregates` of the temporal panel (`table-facturacion.tsx`). -/
structure TemporalAggregates where
  totalTransito : ℚ
  promedioDiario : ℚ
  diaPico : FechaCantidad
  horaPico : HoraCantidad
  tendenciaDiaria : List FechaCantidad
  promedioPorDiaSemana : List DiaCantidadTotal
  heatmapDiaHora : List DiaHoraCantidad
  top5Dias : List FechaCantidad
  bottom5Dias : List FechaCantidad

/-- A sessionStorage slot of the temporal cache. -/
inductive TmpCached where
  | entry (aggregates : Option TemporalAggregates) (timestamp : ℤ)
  | malformed

/-- sessionStorage, restricted to the temporal cache slots. -/
def TmpStorage : Type := String → Option TmpCached

/-- `getCacheKey` of the temporal panel: prepends `temporal-cache-`. -/
def getCacheKeyTmp (key : String) : String := "temporal-cache-" ++ key

/-- `getCachedData` of the temporal panel; unlike the other two panels the
caller passes the already-namespaced key. -/
def getCachedDataTmp (now : ℤ) (store : TmpStorage) (key : String) :
    Option TemporalAggregates × TmpStorage :=
  match store key with
  | none => (none, store)
  | some TmpCached.malformed => (none, store)
  | some (TmpCached.entry aggs ts) =>
    if now - ts > CACHE_EXPIRY then
      (none, storageRemove store key)
    else
      (aggs, store)

/-- `setCachedData` of the temporal panel. -/
def setCachedDataTmp (now : ℤ) (writeOk : Bool) (store : TmpStorage) (key : String)
    (aggregates : Option TemporalAggregates) : TmpStorage :=
  if writeOk then
    storageSet store key (TmpCached.entry aggregates now)
  else
    store

/-- Count of an element in a three-element list `[a, b, a]` with `a ≠ b` is at
most 2. -/
theorem count_le_two_of_ne {α : Type} [DecidableEq α] {a b : α} (h : a ≠ b) (r : α) :
    List.count r [a, b, a] ≤ 2 := by
  simp only [List.count_cons, List.count_nil, beq_iff_eq]
  split_ifs with h1 h2
  · exact absurd (h1.trans h2.symm) h
  · omega
  · omega
  · omega

/-- C1: `apiFetch` returns the first response unchanged when it is not a 401 or
when the request is excluded from the refresh flow; on an unexcluded 401 it
issues exactly one refresh POST to `/auth/refresh`, replays the original
request exactly once when the refresh succeeds (returning the replay's
response), returns the original 401 when the refresh fails, and never issues
any request more than twice. -/
theorem apiFetch_refresh_replay_spec (baseUrl pathOrUrl : String)
    (options : ApiFetchOptions) (env : FetchEnv) :
    ((env.firstResponse.status ≠ 401 ∨
        shouldSkipRefresh (buildUrl baseUrl pathOrUrl) options = true) →
      apiFetch baseUrl pathOrUrl options env =
        (env.firstResponse, [⟨buildUrl baseUrl pathOrUrl, options.method⟩])) ∧
    (env.firstResponse.status = 401 →
      shouldSkipRefresh (buildUrl baseUrl pathOrUrl) options = false →
      ((env.refreshResponse.ok = true →
          apiFetch baseUrl pathOrUrl options env =
            (env.replayResponse,
              [⟨buildUrl baseUrl pathOrUrl, options.method⟩,
               ⟨buildUrl baseUrl "/auth/refresh", "POST"⟩,
               ⟨buildUrl baseUrl pathOrUrl, options.method⟩])) ∧
        (env.refreshResponse.ok = false →
          apiFetch baseUrl pathOrUrl options env =
            (env.firstResponse,
              [⟨buildUrl baseUrl pathOrUrl, options.method⟩,
               ⟨buildUrl baseUrl "/auth/refresh", "POST"⟩])))) ∧
    (∀ r : Request, (apiFetch baseUrl pathOrUrl options env).2.count r ≤ 2) := by
  refine ⟨?_, ?_, ?_⟩
  · rintro (h | h)
    · have hb : (env.firstResponse.status != 401) = true := by simpa using h
      simp [apiFetch, hb]
    · simp [apiFetch, h]
  · intro h401 hskip
    have hb : (env.firstResponse.status != 401) = false := by simp [h401]
    constructor
    · intro hok
      simp [apiFetch, hb, hskip, hok]
    · intro hok
      simp [apiFetch, hb, hskip, hok]
  · intro r
    by_cases hc : (env.firstResponse.status != 401 ||
        shouldSkipRefresh (buildUrl baseUrl pathOrUrl) options) = true
    · have happ : apiFetch baseUrl pathOrUrl options env =
          (env.firstResponse, [⟨buildUrl baseUrl pathOrUrl, options.method⟩]) := by
        simp [apiFetch, hc]
      rw [happ]
      exact le_trans (List.count_le_length r _) (by simp)
    · have hc' : (env.firstResponse.status != 401 ||
          shouldSkipRefresh (buildUrl baseUrl pathOrUrl) options) = false := by
        simpa using hc
      have hparts := Bool.or_eq_false_iff.mp hc'
      have hskip := hparts.2
      have hne : (⟨buildUrl baseUrl pathOrUrl, options.method⟩ : Request) ≠
          ⟨buildUrl baseUrl "/auth/refresh", "POST"⟩ := by
        intro he
        exact url_ne_refreshUrl baseUrl (shouldSkipRefresh_eq_false hskip).2.2
          (congrArg Request.url he)
      by_cases hok : env.refreshResponse.ok = true
      · have happ : apiFetch baseUrl pathOrUrl options env =
            (env.replayResponse,
              [⟨buildUrl baseUrl pathOrUrl, options.method⟩,
               ⟨buildUrl baseUrl "/auth/refresh", "POST"⟩,
               ⟨buildUrl baseUrl pathOrUrl, options.method⟩]) := by
          simp [apiFetch, hc', hok]
        rw [happ]
        exact count_le_two_of_ne hne r
      · have hokf : env.refreshResponse.ok = false := by simpa using hok
        have happ : apiFetch baseUrl pathOrUrl options env =
            (env.firstResponse,
              [⟨buildUrl baseUrl pathOrUrl, options.method⟩,
               ⟨buildUrl baseUrl "/auth/refresh", "POST"⟩]) := by
          simp [apiFetch, hc', hokf]
        rw [happ]
        exact le_trans (List.count_le_length r _) (by simp)

/-- Witness for C1: a 401 on `/data` with a succeeding refresh is replayed once
and the replay's response (204) is returned. -/
theorem apiFetch_refresh_replay_spec_witness :
    apiFetch "https://b" "/data" ⟨false, "GET"⟩ ⟨⟨401⟩, ⟨200⟩, ⟨204⟩⟩ =
      (⟨204⟩,
        [⟨buildUrl "https://b" "/data", "GET"⟩,
         ⟨buildUrl "https://b" "/auth/refresh", "POST"⟩,
         ⟨buildUrl "https://b" "/data", "GET"⟩]) :=
  ((apiFetch_refresh_replay_spec "https://b" "/data" ⟨false, "GET"⟩
      ⟨⟨401⟩, ⟨200⟩, ⟨204⟩⟩).2.1 rfl (by decide)).1 rfl

/-- C8: a request whose built URL contains `/auth/login` or `/auth/refresh`, or
whose options set `skipAuthRefresh`, never triggers the refresh flow: the first
response comes back as-is and the only request issued is the original one,
regardless of its status. -/
theorem apiFetch_never_refreshes_excluded (baseUrl pathOrUrl : String)
    (options : ApiFetchOptions) (env : FetchEnv)
    (h : strIncludes (buildUrl baseUrl pathOrUrl) "/auth/login" = true ∨
         strIncludes (buildUrl baseUrl pathOrUrl) "/auth/refresh" = true ∨
         options.skipAuthRefresh = true) :
    apiFetch baseUrl pathOrUrl options env =
      (env.firstResponse, [⟨buildUrl baseUrl pathOrUrl, options.method⟩]) := by
  have hskip : shouldSkipRefresh (buildUrl baseUrl pathOrUrl) options = true := by
    unfold shouldSkipRefresh
    rcases h with h | h | h <;> simp [h]
  simp [apiFetch, hskip]

/-- Witness for C8: a 401 from the login endpoint is returned unchanged with no
refresh request issued. -/
theorem apiFetch_never_refreshes_excluded_witness :
    apiFetch "https://b" "/auth/login" ⟨false, "POST"⟩ ⟨⟨401⟩, ⟨200⟩, ⟨204⟩⟩ =
      (⟨401⟩, [⟨buildUrl "https://b" "/auth/login", "POST"⟩]) :=
  apiFetch_never_refreshes_excluded "https://b" "/auth/login" ⟨false, "POST"⟩
    ⟨⟨401⟩, ⟨200⟩, ⟨204⟩⟩ (Or.inl (by decide))

/-- C2: the middleware passes through requests for `/login`, `/auth`, `/_astro`
or file paths; for every other path it redirects to `/login` exactly when the
`access_token` cookie is absent or empty, and passes through otherwise. -/
theorem onRequest_spec (pathname : String) (cookie : Option String) :
    ((jsStartsWith pathname "/login" = true ∨ jsStartsWith pathname "/auth" = true ∨
        jsStartsWith pathname "/_astro" = true ∨ pubFileTest pathname = true) →
      onRequest pathname cookie = MwResult.next) ∧
    (jsStartsWith pathname "/login" = false → jsStartsWith pathname "/auth" = false →
      jsStartsWith pathname "/_astro" = false → pubFileTest pathname = false →
      ((cookie = none ∨ cookie = some "" →
          onRequest pathname cookie = MwResult.redirectTo "/login") ∧
        (∀ v, cookie = some v → v ≠ "" → onRequest pathname cookie = MwResult.next))) := by
  constructor
  · intro h
    unfold onRequest
    rcases h with h | h | h | h <;> simp [h]
  · intro h1 h2 h3 h4
    constructor
    · rintro (h | h) <;> subst h <;> simp [onRequest, h1, h2, h3, h4]
    · intro v hv hne
      subst hv
      have hv' : ((some v).getD "" != "") = true := by
        simpa [bne_iff_ne] using hne
      simp [onRequest, h1, h2, h3, h4, hv', hne]

/-- Witness for C2: `/dashboard` without a cookie is redirected to `/login`. -/
theorem onRequest_spec_witness :
    onRequest "/dashboard" none = MwResult.redirectTo "/login" :=
  ((onRequest_spec "/dashboard" none).2 (by decide) (by decide) (by decide)
    (by decide)).1 (Or.inl rfl)

/-- C3: in each of the three panel caches, an entry whose timestamp is more
than 30 minutes older than the current time makes `getCachedData` return
`none` and remove the slot; an entry at most 30 minutes old and well-formed
makes it return the stored payload, leaving the storage unchanged. -/
theorem getCachedData_expiry_spec (now ts : ℤ) (key : String) :
    (∀ (store : EstStorage) (d : EstJsonData) (aggs : Option EstadisticoAggregates),
      store ("estadistico-cache-" ++ key) = some (EstCached.entry d aggs ts) →
      (now - ts > CACHE_EXPIRY →
        getCachedDataEst now store key =
          (none, storageRemove store ("estadistico-cache-" ++ key))) ∧
      (now - ts ≤ CACHE_EXPIRY → ∀ l, d = EstJsonData.rows l →
        getCachedDataEst now store key = (some ⟨l, aggs⟩, store))) ∧
    (∀ (store : CabStorage) (aggs : Option CabinasAggregates),
      store ("cabinas-cache-" ++ key) = some (CabCached.entry aggs ts) →
      (now - ts > CACHE_EXPIRY →
        getCachedDataCab now store key =
          (none, storageRemove store ("cabinas-cache-" ++ key))) ∧
      (now - ts ≤ CACHE_EXPIRY → getCachedDataCab now store key = (aggs, store))) ∧
    (∀ (store : TmpStorage) (aggs : Option TemporalAggregates),
      store (getCacheKeyTmp key) = some (TmpCached.entry aggs ts) →
      (now - ts > CACHE_EXPIRY →
        getCachedDataTmp now store (getCacheKeyTmp key) =
          (none, storageRemove store (getCacheKeyTmp key))) ∧
      (now - ts ≤ CACHE_EXPIRY →
        getCachedDataTmp now store (getCacheKeyTmp key) = (aggs, store))) := by
  refine ⟨?_, ?_, ?_⟩
  · intro store d aggs hstore
    constructor
    · intro hexp
      simp [getCachedDataEst, hstore, hexp]
    · intro hfresh l hd
      subst hd
      have hnot : ¬ (now - ts > CACHE_EXPIRY) := not_lt.mpr hfresh
      simp [getCachedDataEst, hstore, hnot]
  · intro store aggs hstore
    constructor
    · intro hexp
      simp [getCachedDataCab, hstore, hexp]
    · intro hfresh
      have hnot : ¬ (now - ts > CACHE_EXPIRY) := not_lt.mpr hfresh
      simp [getCachedDataCab, hstore, hnot]
  · intro store aggs hstore
    constructor
    · intro hexp
      simp [getCachedDataTmp, hstore, hexp]
    · intro hfresh
      have hnot : ¬ (now - ts > CACHE_EXPIRY) := not_lt.mpr hfresh
      simp [getCachedDataTmp, hstore, hnot]

/-- Witness for C3: an estadistico entry written at time 0 is evicted when
read at time 30 min + 1 ms. -/
theorem getCachedData_expiry_spec_witness :
    getCachedDataEst 1800001
        (fun k2 => if k2 = "estadistico-cache-k" then
          some (EstCached.entry (EstJsonData.rows []) none 0) else none) "k" =
      (none,
        storageRemove
          (fun k2 => if k2 = "estadistico-cache-k" then
            some (EstCached.entry (EstJsonData.rows []) none 0) else none)
          ("estadistico-cache-" ++ "k")) :=
  (((getCachedData_expiry_spec 1800001 0 "k").1
      (fun k2 => if k2 = "estadistico-cache-k" then
        some (EstCached.entry (EstJsonData.rows []) none 0) else none)
      (EstJsonData.rows []) none (by simp)).1 (by decide))

/-- C4: round trip of the estadistico response cache — a payload written by
`setCachedData` at time `now` (with the write succeeding) is returned intact
by `getCachedData` at any time at most 30 minutes later, the `aggregates`
field normalized through `?? null` (both absence and `null` are `none` in the
model). -/
theorem cache_roundtrip_spec (now later : ℤ) (writeOk : Bool) (store : EstStorage)
    (key : String) (payload : EstadisticoResponse)
    (hok : writeOk = true) (hfresh : later - now ≤ CACHE_EXPIRY) :
    getCachedDataEst later (setCachedDataEst now writeOk store key payload) key =
      (some ⟨payload.data, payload.aggregates⟩,
        setCachedDataEst now writeOk store key payload) := by
  subst hok
  have hnot : ¬ (later - now > CACHE_EXPIRY) := not_lt.mpr hfresh
  simp [getCachedDataEst, setCachedDataEst, storageSet, hnot]

/-- Witness for C4: a payload cached at time 0 is read back exactly at the
30-minute boundary. -/
theorem cache_roundtrip_spec_witness :
    getCachedDataEst 1800000 (setCachedDataEst 0 true (fun _ => none) "k" ⟨[], none⟩) "k" =
      (some ⟨[], none⟩, setCachedDataEst 0 true (fun _ => none) "k" ⟨[], none⟩) :=
  cache_roundtrip_spec 0 1800000 true (fun _ => none) "k" ⟨[], none⟩ rfl (by decide)

/-- JS `(x || 0)` on a number: `0` (falsy) maps to `0`, anything else to
itself — on `ℚ` this is the identity, written out for fidelity to the
`(row.VALOR_i || 0)` guards. -/
def jsOr0 (x : ℚ) : ℚ := if x = 0 then 0 else x

/-- The KPI record computed by `computedKpis` / selected into `kpis`. -/
structure Kpis where
  ingresoTotal : ℚ
  vehiculosEfec : ℚ
  vehiculosExentos : ℚ
  vehiculosRfid100 : ℚ
  porcentajeExentos : ℚ
deriving DecidableEq, Repr

/-- `const efec = data.filter(row => row.FORMA_DE_PAGO === "EFEC.")`. -/
def efecRows (data : List EstadisticoRow) : List EstadisticoRow :=
  data.filter (fun row => row.FORMA_DE_PAGO == "EFEC.")

/-- `const rfid0 = data.filter(row => row.FORMA_DE_PAGO === "RFID 0 %")`. -/
def rfid0Rows (data : List EstadisticoRow) : List EstadisticoRow :=
  data.filter (fun row => row.FORMA_DE_PAGO == "RFID 0 %")

/-- `const rfid50 = data.filter(row => row.FORMA_DE_PAGO === "RFID 50 %")`. -/
def rfid50Rows (data : List EstadisticoRow) : List EstadisticoRow :=
  data.filter (fun row => row.FORMA_DE_PAGO == "RFID 50 %")

/-- `const rfid100 = data.filter(row => row.FORMA_DE_PAGO === "RFID 100 %")`. -/
def rfid100Rows (data : List EstadisticoRow) : List EstadisticoRow :=
  data.filter (fun row => row.FORMA_DE_PAGO == "RFID 100 %")

/-- `const exentos = data.filter(...)`: everything that is neither `EFEC.` nor
an `RFID` payment. -/
def exentosRows (data : List EstadisticoRow) : List EstadisticoRow :=
  data.filter (fun row =>
    row.FORMA_DE_PAGO != "EFEC." && !jsStartsWith row.FORMA_DE_PAGO "RFID")

/-- The `reduce` summing `(row.VALOR_1 || 0) + … + (row.VALOR_9 || 0)` used for
`ingresoEfec`, `ingresoRfid0` and `ingresoRfid50`. -/
def valorReduce (rows : List EstadisticoRow) : ℚ :=
  rows.foldl (fun sum row =>
    sum + jsOr0 row.VALOR_1 + jsOr0 row.VALOR_2 + jsOr0 row.VALOR_3 +
      jsOr0 row.VALOR_4 + jsOr0 row.VALOR_5 + jsOr0 row.VALOR_6 +
      jsOr0 row.VALOR_7 + jsOr0 row.VALOR_8 + jsOr0 row.VALOR_9) 0

/-- The `reduce` summing `row.CAT1 + … + row.CAT9` used for the vehicle
counts. -/
def catReduce (rows : List EstadisticoRow) : ℚ :=
  rows.foldl (fun sum row =>
    sum + row.CAT1 + row.CAT2 + row.CAT3 + row.CAT4 + row.CAT5 + row.CAT6 +
      row.CAT7 + row.CAT8 + row.CAT9) 0

/-- `ingresoTotal = ingresoEfec + ingresoRfid0 + ingresoRfid50`. -/
def ingresoTotalOf (data : List EstadisticoRow) : ℚ :=
  valorReduce (efecRows data) + valorReduce (rfid0Rows data) +
    valorReduce (rfid50Rows data)

/-- `vehiculosEfec`. -/
def vehiculosEfecOf (data : List EstadisticoRow) : ℚ :=
  catReduce (efecRows data)

/-- `vehiculosExentos`. -/
def vehiculosExentosOf (data : List EstadisticoRow) : ℚ :=
  catReduce (exentosRows data)

/-- `vehiculosRfid100`. -/
def vehiculosRfid100Of (data : List EstadisticoRow) : ℚ :=
  catReduce (rfid100Rows data)

/-- `totalVehiculos = vehiculosEfec + vehiculosExentos + vehiculosRfid100`. -/
def totalVehiculosOf (data : List EstadisticoRow) : ℚ :=
  vehiculosEfecOf data + vehiculosExentosOf data + vehiculosRfid100Of data

/-- `porcentajeExentos = totalVehiculos > 0 ? ((vehiculosExentos +
vehiculosRfid100) / totalVehiculos) * 100 : 0`. -/
def porcentajeExentosOf (data : List EstadisticoRow) : ℚ :=
  if totalVehiculosOf data > 0 then
    ((vehiculosExentosOf data + vehiculosRfid100Of data) / totalVehiculosOf data) * 100
  else 0

/-- `computedKpis` of ChartEstadistico (the client-side fallback KPI
computation over the raw rows). -/
def computedKpis (data : List EstadisticoRow) : Kpis :=
  ⟨ingresoTotalOf data, vehiculosEfecOf data, vehiculosExentosOf data,
    vehiculosRfid100Of data, porcentajeExentosOf data⟩

/-- The `kpis` value rendered by ChartEstadistico: the server aggregates'
fields when `aggregates` is non-null, otherwise `computedKpis`. -/
def kpisOf (aggregates : Option EstadisticoAggregates)
    (data : List EstadisticoRow) : Kpis :=
  match aggregates with
  | some a =>
    ⟨a.ingresoTotal, a.vehiculosEfec, a.vehiculosExentos, a.vehiculosRfid100,
      a.porcentajeExentos⟩
  | none => computedKpis data

/-- C5: with `aggregates` null the displayed KPIs are exactly the client-side
recomputation; with `aggregates` non-null they are exactly the server fields,
and the raw rows do not influence them (the recomputation is not used). -/
theorem kpis_selection_spec (aggregates : Option EstadisticoAggregates)
    (data : List EstadisticoRow) :
    (aggregates = none → kpisOf aggregates data = computedKpis data) ∧
    (∀ a, aggregates = some a →
      kpisOf aggregates data =
        ⟨a.ingresoTotal, a.vehiculosEfec, a.vehiculosExentos, a.vehiculosRfid100,
          a.porcentajeExentos⟩ ∧
      ∀ data2, kpisOf aggregates data2 = kpisOf aggregates data) := by
  constructor
  · rintro rfl
    rfl
  · rintro a rfl
    exact ⟨rfl, fun data2 => rfl⟩

/-- Witness for C5: with no aggregates the KPIs are the recomputed ones. -/
theorem kpis_selection_spec_witness :
    kpisOf none [] = computedKpis [] :=
  (kpis_selection_spec none []).1 rfl

/-- The C9 counterexample row: an exempt row with a negative `CAT1` count
(JS numbers are unconstrained, so nothing in the pipeline rules this out). -/
def c9Row : EstadisticoRow :=
  ⟨0, 0, "", 0, 0, "EXENTO", 0, 0, none, -1, 0, 0, 0, 0, 0, 0, 0, 0, 0, 0, 0,
    0, 0, 0, 0, 0, 0⟩

/-- Counterexample to C9 as stated: on `[c9Row]` the total vehicle count is
`-1`, which is nonzero, yet `porcentajeExentos` is `0` and not the claimed
ratio (which is `100` here) — the code branches on `totalVehiculos > 0`, not
on `totalVehiculos ≠ 0`. -/
theorem computedKpis_porcentaje_counterexample :
    (computedKpis [c9Row]).vehiculosEfec + (computedKpis [c9Row]).vehiculosExentos +
        (computedKpis [c9Row]).vehiculosRfid100 ≠ 0 ∧
    (computedKpis [c9Row]).porcentajeExentos = 0 ∧
    ((computedKpis [c9Row]).vehiculosExentos + (computedKpis [c9Row]).vehiculosRfid100) /
        ((computedKpis [c9Row]).vehiculosEfec + (computedKpis [c9Row]).vehiculosExentos +
          (computedKpis [c9Row]).vehiculosRfid100) * 100 = 100 := by
  have hs : jsStartsWith "EXENTO" "RFID" = false := by decide
  have hE : vehiculosEfecOf [c9Row] = 0 := by
    simp [vehiculosEfecOf, efecRows, c9Row, catReduce, List.filter]
  have hX : vehiculosExentosOf [c9Row] = -1 := by
    simp [vehiculosExentosOf, exentosRows, c9Row, catReduce, List.filter, hs]
  have hR : vehiculosRfid100Of [c9Row] = 0 := by
    simp [vehiculosRfid100Of, rfid100Rows, c9Row, catReduce, List.filter]
  have hP : (computedKpis [c9Row]).porcentajeExentos = 0 := by
    show porcentajeExentosOf [c9Row] = 0
    unfold porcentajeExentosOf totalVehiculosOf
    rw [hE, hX, hR]
    have hneg : ¬ ((0 : ℚ) + -1 + 0 > 0) := by norm_num
    rw [if_neg hneg]
  refine ⟨?_, hP, ?_⟩
  · show vehiculosEfecOf [c9Row] + vehiculosExentosOf [c9Row] +
        vehiculosRfid100Of [c9Row] ≠ 0
    rw [hE, hX, hR]
    norm_num
  · show (vehiculosExentosOf [c9Row] + vehiculosRfid100Of [c9Row]) /
        (vehiculosEfecOf [c9Row] + vehiculosExentosOf [c9Row] +
          vehiculosRfid100Of [c9Row]) * 100 = 100
    rw [hE, hX, hR]
    norm_num

/-- C9 amended: `porcentajeExentos` is always a well-defined rational; it is 0
whenever the total vehicle count is not positive (in particular when it is
zero, e.g. on the empty row list), and equals
`((vehiculosExentos + vehiculosRfid100) / total) * 100` whenever the total is
positive. -/
theorem computedKpis_porcentaje_spec (data : List EstadisticoRow) :
    ((computedKpis data).vehiculosEfec + (computedKpis data).vehiculosExentos +
        (computedKpis data).vehiculosRfid100 ≤ 0 →
      (computedKpis data).porcentajeExentos = 0) ∧
    ((computedKpis data).vehiculosEfec + (computedKpis data).vehiculosExentos +
        (computedKpis data).vehiculosRfid100 > 0 →
      (computedKpis data).porcentajeExentos =
        ((computedKpis data).vehiculosExentos + (computedKpis data).vehiculosRfid100) /
          ((computedKpis data).vehiculosEfec + (computedKpis data).vehiculosExentos +
            (computedKpis data).vehiculosRfid100) * 100) := by
  constructor
  · intro h
    have h2 : totalVehiculosOf data ≤ 0 := h
    show porcentajeExentosOf data = 0
    unfold porcentajeExentosOf
    rw [if_neg (not_lt.mpr h2)]
  · intro h
    have h2 : totalVehiculosOf data > 0 := h
    show porcentajeExentosOf data =
      (vehiculosExentosOf data + vehiculosRfid100Of data) / totalVehiculosOf data * 100
    unfold porcentajeExentosOf
    rw [if_pos h2]

/-- Witness for C9 (amended): on the empty row list the total is 0 and the
percentage is 0. -/
theorem computedKpis_porcentaje_spec_witness :
    (computedKpis []).porcentajeExentos = 0 :=
  (computedKpis_porcentaje_spec []).1
    (by simp [computedKpis, vehiculosEfecOf, vehiculosExentosOf, vehiculosRfid100Of,
      efecRows, exentosRows, rfid100Rows, catReduce])

/-- The React state of the ChartEstadistico panel touched by `fetchData`. -/
structure EstPanelState where
  data : List EstadisticoRow
  aggregates : Option EstadisticoAggregates
  loading : Bool
  error : Option String

/-- How one run of the estadistico `fetchData` resolves after its awaits: a
cache hit, a successful network response (already normalized to an
`EstadisticoResponse`), or a thrown error caught with message `message`. -/
inductive EstFetchOutcome where
  | cacheHit (payload : EstadisticoResponse)
  | success (payload : EstadisticoResponse)
  | failure (message : String)

/-- The state updates the estadistico `fetchData` performs once it resumes
after its awaits, each guarded by the `isMounted` flag exactly as in the
source (cache-hit branch plus early return, success branch, catch branch,
and the `finally` clause). -/
def estApplyFetchResult (isMounted : Bool) (st : EstPanelState)
    (o : EstFetchOutcome) : EstPanelState :=
  match o with
  | EstFetchOutcome.cacheHit p =>
    let st1 := if isMounted then
      { st with
          data := p.data
          aggregates := p.aggregates
          error := none
          loading := false }
    else st
    if isMounted then { st1 with loading := false } else st1
  | EstFetchOutcome.success p =>
    let st1 := if isMounted then
      { st with
          data := p.data
          aggregates := p.aggregates
          error := none }
    else st
    if isMounted then { st1 with loading := false } else st1
  | EstFetchOutcome.failure msg =>
    let st1 := if isMounted then { st with error := some msg } else st
    if isMounted then { st1 with loading := false } else st1

/-- The React state of the ChartCabinas panel touched by its `fetchData`. -/
structure CabPanelState where
  aggregates : Option CabinasAggregates
  loading : Bool
  error : Option String

/-- How one run of the cabinas `fetchData` resolves: cache hit (necessarily
non-null), network success (`json.aggregates ?? null`), or caught error. -/
inductive CabFetchOutcome where
  | cacheHit (payload : CabinasAggregates)
  | success (payload : Option CabinasAggregates)
  | failure (message : String)

/-- The state updates the cabinas `fetchData` performs once it resumes after
its awaits, each guarded by `isMounted` as in the source. -/
def cabApplyFetchResult (isMounted : Bool) (st : CabPanelState)
    (o : CabFetchOutcome) : CabPanelState :=
  match o with
  | CabFetchOutcome.cacheHit p =>
    let st1 := if isMounted then
      { st with
          aggregates := some p
          error := none
          loading := false }
    else st
    if isMounted then { st1 with loading := false } else st1
  | CabFetchOutcome.success p =>
    let st1 := if isMounted then
      { st with
          aggregates := p
          error := none }
    else st
    if isMounted then { st1 with loading := false } else st1
  | CabFetchOutcome.failure msg =>
    let st1 := if isMounted then { st with error := some msg } else st
    if isMounted then { st1 with loading := false } else st1

/-- C7: once the effect cleanup has set `isMounted` to false, a completing
fetch — whatever its outcome — performs no state update at all in either
panel: data, aggregates, error and loading are all left untouched. -/
theorem fetch_after_unmount_no_update (st : EstPanelState) (o : EstFetchOutcome)
    (st2 : CabPanelState) (o2 : CabFetchOutcome) :
    estApplyFetchResult false st o = st ∧ cabApplyFetchResult false st2 o2 = st2 := by
  constructor
  · cases o <;> rfl
  · cases o2 <;> rfl

/-- The login-form state touched by `handleSubmit`. -/
structure LoginState where
  error : Option String
  success : Bool
  loading : Bool

/-- The body of the login POST issued by `handleSubmit`. -/
structure LoginRequest where
  username : String
  password : String

/-- Result of the synchronous prelude of `handleSubmit`: either the empty-field
early return (no request), or the state updates plus the request that is then
handed to `apiFetch`. -/
inductive LoginSubmitStep where
  | earlyReturn (state : LoginState)
  | proceed (state : LoginState) (request : LoginRequest)

/-- JS `String.prototype.trim` on the model: drop whitespace from both ends
(char-list implementation). -/
def jsTrim (s : String) : String :=
  ⟨((s.data.dropWhile Char.isWhitespace).reverse.dropWhile Char.isWhitespace).reverse⟩

/-- The prelude of `handleSubmit` in `login-form.tsx`, up to the `apiFetch`
call: reads `String(formData.get(...) || "")`, trims, and on an empty usuario
or clave sets the error message and returns; otherwise clears error and
success, sets loading and issues the login request with the trimmed values. -/
def handleSubmitPre (st : LoginState) (usuarioField claveField : Option String) :
    LoginSubmitStep :=
  let usuario := jsTrim (usuarioField.getD "")
  let clave := jsTrim (claveField.getD "")
  if usuario == "" || clave == "" then
    LoginSubmitStep.earlyReturn
      { st with error := some "Ingresa usuario y clave para continuar." }
  else
    LoginSubmitStep.proceed ⟨none, false, true⟩ ⟨usuario, clave⟩

/-- C10: when the trimmed usuario or the trimmed clave is empty, the submit
handler takes the early return — no request is issued — with the error set
and loading and success unchanged. -/
theorem handleSubmit_empty_field_no_request (st : LoginState)
    (usuarioField claveField : Option String)
    (h : jsTrim (usuarioField.getD "") = "" ∨ jsTrim (claveField.getD "") = "") :
    ∃ st2, handleSubmitPre st usuarioField claveField = LoginSubmitStep.earlyReturn st2 ∧
      st2.error = some "Ingresa usuario y clave para continuar." ∧
      st2.loading = st.loading ∧ st2.success = st.success := by
  have hb : ((jsTrim (usuarioField.getD "") == "") ||
      (jsTrim (claveField.getD "") == "")) = true := by
    rcases h with h | h <;> simp [h]
  refine ⟨{ st with error := some "Ingresa usuario y clave para continuar." },
    ?_, rfl, rfl, rfl⟩
  simp [handleSubmitPre, hb]

/-- Witness for C10: a whitespace-only usuario with a non-empty clave takes
the early return. -/
theorem handleSubmit_empty_field_no_request_witness :
    ∃ st2, handleSubmitPre ⟨none, false, false⟩ (some "   ") (some "x") =
        LoginSubmitStep.earlyReturn st2 ∧
      st2.error = some "Ingresa usuario y clave para continuar." ∧
      st2.loading = false ∧ st2.success = false :=
  handleSubmit_empty_field_no_request ⟨none, false, false⟩ (some "   ") (some "x")
    (Or.inl (by decide))

/-- The filter controls of the billing table (`TableFacturacion`). -/
structure FacturacionFilters where
  timeRange : String
  peaje : String
  turno : String
deriving DecidableEq, Repr

/-- React re-runs the billing table's fetch effect exactly when one of its
dependencies changed; the source dependency array is `[timeRange, peaje]` —
`turno` is not in it. -/
def facturacionEffectReruns (f1 f2 : FacturacionFilters) : Bool :=
  f1.timeRange != f2.timeRange || f1.peaje != f2.peaje

/-- The filter controls of ChartEstadistico: the date range (from/to) and the
toll station. -/
structure EstadisticoFilters where
  dateRange : Option (String × Option String)
  peaje : String
deriving DecidableEq, Repr

/-- ChartEstadistico's fetch effect dependency array is `[dateRange, peaje]` —
both of its filter controls. -/
def estadisticoEffectReruns (f1 f2 : EstadisticoFilters) : Bool :=
  f1.dateRange != f2.dateRange || f1.peaje != f2.peaje

/-- The filter controls of ChartCabinas. -/
structure CabinasFilters where
  timeRange : String
  peaje : String
deriving DecidableEq, Repr

/-- ChartCabinas's fetch effect dependency array is `[timeRange, peaje]` —
both of its filter controls. -/
def cabinasEffectReruns (f1 f2 : CabinasFilters) : Bool :=
  f1.timeRange != f2.timeRange || f1.peaje != f2.peaje

/-- The prelude of the estadistico `fetchData` body: consult the session cache
and issue the network GET only on a cache miss (`cacheKey` is
`getDateRangeKey(dateRange) + "-" + peaje` at the call site). -/
def estFetchIssuesRequest (now : ℤ) (store : EstStorage) (cacheKey : String) : Bool :=
  match (getCachedDataEst now store cacheKey).1 with
  | some _ => false
  | none => true

/-- Counterexample to C6 as stated: changing the billing table's `turno`
(shift) filter does not re-run its fetch effect, and even a re-run of the
estadistico effect issues no GET when a fresh cache entry exists. -/
theorem panel_filter_refetch_counterexample :
    (⟨"7d", "all", "1"⟩ : FacturacionFilters) ≠ (⟨"7d", "all", "2"⟩ : FacturacionFilters) ∧
    facturacionEffectReruns ⟨"7d", "all", "1"⟩ ⟨"7d", "all", "2"⟩ = false ∧
    estFetchIssuesRequest 0
      (fun k2 => if k2 = "estadistico-cache-k" then
        some (EstCached.entry (EstJsonData.rows []) none 0) else none) "k" = false := by
  refine ⟨by decide, by decide, ?_⟩
  have hstore : ((fun k2 => if k2 = "estadistico-cache-k" then
      some (EstCached.entry (EstJsonData.rows []) none 0) else none) :
        EstStorage) ("estadistico-cache-" ++ "k") =
      some (EstCached.entry (EstJsonData.rows []) none 0) := by simp
  have hnot : ¬ (CACHE_EXPIRY < (0 : ℤ)) := by decide
  simp [estFetchIssuesRequest, getCachedDataEst, hstore, hnot]

/-- C6 amended: for ChartEstadistico and ChartCabinas every owned filter is an
effect dependency, so any change to it re-runs the fetch effect; in the
billing table only `timeRange` and `peaje` are dependencies, and a
`turno`-only change does not re-run the effect; and a re-run issues the
parameterized GET exactly when the session cache has no fresh entry for the
filter key. -/
theorem panel_filter_refetch_spec :
    (∀ f1 f2 : FacturacionFilters, f1.timeRange = f2.timeRange → f1.peaje = f2.peaje →
      facturacionEffectReruns f1 f2 = false) ∧
    (∀ f1 f2 : FacturacionFilters, f1.timeRange ≠ f2.timeRange ∨ f1.peaje ≠ f2.peaje →
      facturacionEffectReruns f1 f2 = true) ∧
    (∀ f1 f2 : EstadisticoFilters, f1 ≠ f2 → estadisticoEffectReruns f1 f2 = true) ∧
    (∀ f1 f2 : CabinasFilters, f1 ≠ f2 → cabinasEffectReruns f1 f2 = true) ∧
    (∀ (now : ℤ) (store : EstStorage) (ck : String),
      (getCachedDataEst now store ck).1 = none →
        estFetchIssuesRequest now store ck = true) ∧
    (∀ (now : ℤ) (store : EstStorage) (ck : String) (p : EstadisticoResponse),
      (getCachedDataEst now store ck).1 = some p →
        estFetchIssuesRequest now store ck = false) := by
  refine ⟨?_, ?_, ?_, ?_, ?_, ?_⟩
  · intro f1 f2 h1 h2
    simp [facturacionEffectReruns, h1, h2]
  · intro f1 f2 h
    rcases h with h | h <;> simp [facturacionEffectReruns, h]
  · intro f1 f2 h
    obtain ⟨d1, p1⟩ := f1
    obtain ⟨d2, p2⟩ := f2
    by_cases hd : d1 = d2
    · by_cases hp : p1 = p2
      · exact absurd (by rw [hd, hp]) h
      · simp [estadisticoEffectReruns, hp]
    · simp [estadisticoEffectReruns, hd]
  · intro f1 f2 h
    obtain ⟨t1, p1⟩ := f1
    obtain ⟨t2, p2⟩ := f2
    by_cases ht : t1 = t2
    · by_cases hp : p1 = p2
      · exact absurd (by rw [ht, hp]) h
      · simp [cabinasEffectReruns, hp]
    · simp [cabinasEffectReruns, ht]
  · intro now store ck h
    simp [estFetchIssuesRequest, h]
  · intro now store ck p h
    simp [estFetchIssuesRequest, h]

/-- Witness for C6 (amended): a `timeRange` change re-runs the billing table's
effect. -/
theorem panel_filter_refetch_spec_witness :
    facturacionEffectReruns ⟨"7d", "all", "all"⟩ ⟨"30d", "all", "all"⟩ = true :=
  panel_filter_refetch_spec.2.1 ⟨"7d", "all", "all"⟩ ⟨"30d", "all", "all"⟩
    (Or.inl (by decide))

end Vial25Dash
